import Mathlib

/-!
Shallow embedding of the clean-arch-ddd repository (Go) into Lean 4.

Conventions of the embedding:
* Go `error` values are modelled by `GoErr`: either a structured
  application error carrying an error code and a message (`pkg/errors`
  `AppError`), or a plain `errors.New` error carrying only a message.
  The `AppError` stack trace and HTTP status are not observable by any
  code modelled here and are omitted.
* Go methods that mutate a receiver and return an `error` are modelled
  as pure functions returning `Option GoErr × Receiver`: the pair of the
  returned error (if any) and the receiver as it stands after the call
  (unchanged on the error paths, exactly as in the source, which returns
  before mutating).
* `time.Time` is modelled as an abstract tick `GoTime := Nat`; every
  operation that calls `time.Now()` takes the current tick as an
  explicit argument.
* Go `float64` payloads are modelled as exact rationals (`GoFloat`).
  Every claim settled against this embedding only copies these values
  or sets them to literal `0`; no settled claim depends on IEEE-754
  rounding (the one claim that does is not settled against this model).
* Go `int` is modelled as `Int`.  None of the settled claims exercises
  64-bit overflow, and on the guarded paths modelled here a wrapped sum
  of two `int64` values is negative, so it takes the same failure branch
  as the mathematical integer.
-/

abbrev GoTime := Nat

abbrev GoFloat := ℚ

/-- Go `error` values: a `pkg/errors.AppError` (code + message) or a plain
`errors.New` message. -/
inductive GoErr where
  | appError (code : String) (message : String)
  | plain (message : String)
deriving Repr, DecidableEq

namespace apperrors

/-- `pkg/errors/codes.go`: `CodeInvalidInput ErrorCode = "INVALID_INPUT"`. -/
def CodeInvalidInput : String := "INVALID_INPUT"

/-- `pkg/errors/codes.go`: `CodeNotFound ErrorCode = "NOT_FOUND"`. -/
def CodeNotFound : String := "NOT_FOUND"

/-- `pkg/errors/codes.go`: `CodeConflict ErrorCode = "CONFLICT"`. -/
def CodeConflict : String := "CONFLICT"

/-- `pkg/errors/codes.go`: `CodeProductNotFound ErrorCode = "PRODUCT_NOT_FOUND"`. -/
def CodeProductNotFound : String := "PRODUCT_NOT_FOUND"

/-- `pkg/errors/codes.go`: `CodeInvalidProductID ErrorCode = "INVALID_PRODUCT_ID"`. -/
def CodeInvalidProductID : String := "INVALID_PRODUCT_ID"

/-- `pkg/errors/codes.go`: `CodeInvalidAdjustment ErrorCode = "INVALID_ADJUSTMENT"`. -/
def CodeInvalidAdjustment : String := "INVALID_ADJUSTMENT"

/-- `pkg/errors/codes.go`: `CodeDatabaseError ErrorCode = "DATABASE_ERROR"`. -/
def CodeDatabaseError : String := "DATABASE_ERROR"

/-- `pkg/errors/codes.go`: `CodeDatabaseConnection ErrorCode = "DATABASE_CONNECTION_ERROR"`. -/
def CodeDatabaseConnection : String := "DATABASE_CONNECTION_ERROR"

/-- `pkg/errors.New(code, message)`: builds an `AppError` with the given code
and message (HTTP status and stack trace omitted: unobservable here). -/
def New (code : String) (message : String) : GoErr :=
  GoErr.appError code message

/-- `pkg/errors.Is(err, code)`: true iff the error is an `AppError` whose
code equals `code`; plain errors never match. -/
def Is (e : GoErr) (code : String) : Bool :=
  match e with
  | GoErr.appError c _ => c == code
  | GoErr.plain _ => false

/-- The message carried by a Go error (`err.Error()` for the errors modelled
here: an `AppError` with a non-empty message returns the message, a plain
error returns its message; the modelled errors always carry a message). -/
def GoErrMessage : GoErr → String
  | GoErr.appError _ m => m
  | GoErr.plain m => m

/-- `database/sql.ErrNoRows`. -/
def sqlErrNoRows : GoErr := GoErr.plain "sql: no rows in result set"

/-- `pkg/errors.Wrap(err, code, message)`: re-codes an error (the wrapped
chain is kept in Go but is not observable by any modelled code). -/
def Wrap (e : GoErr) (code : String) (message : String) : GoErr :=
  match e with
  | _ => GoErr.appError code message

/-- `pkg/errors.WithCode(err, code)`: re-codes an error, keeping its
original message. -/
def WithCode (e : GoErr) (code : String) : GoErr :=
  GoErr.appError code (GoErrMessage e)

/-- Window scan of `pkg/errors.containsAny`: does `sub` occur inside the
character list? -/
def charsContain (sub : List Char) : List Char → Bool
  | [] => sub.isEmpty
  | c :: rest => sub.isPrefixOf (c :: rest) || charsContain sub rest

/-- `pkg/errors.containsAny(s, substrings...)`: substring containment scan. -/
def containsAny (s : String) (substrings : List String) : Bool :=
  substrings.any fun sub => charsContain sub.toList s.toList

/-- `pkg/errors.WrapDatabaseError(err)` for a non-nil error (`errors.Is`
against `sql.ErrNoRows` is modelled as equality of the error value). -/
def WrapDatabaseError (e : GoErr) : GoErr :=
  if e = sqlErrNoRows then
    WithCode e CodeNotFound
  else if containsAny (GoErrMessage e)
      ["duplicate key", "unique constraint", "violates unique constraint"] then
    Wrap e CodeConflict "Resource already exists"
  else if containsAny (GoErrMessage e)
      ["foreign key constraint", "violates foreign key constraint"] then
    Wrap e CodeInvalidInput "Referenced resource does not exist"
  else if containsAny (GoErrMessage e)
      ["connection", "network", "timeout", "dial tcp"] then
    Wrap e CodeDatabaseConnection "Database connection error"
  else
    Wrap e CodeDatabaseError "Database operation failed"

end apperrors

namespace inventory

/-- `internal/domain/inventory/errors.go`: `ErrInventoryNotFound`. -/
def ErrInventoryNotFound : GoErr := GoErr.plain "inventory not found"

/-- `internal/domain/inventory/errors.go`: `ErrInventoryExists`. -/
def ErrInventoryExists : GoErr := GoErr.plain "inventory already exists for this product"

/-- `internal/domain/inventory/errors.go`: `ErrInsufficientStock`. -/
def ErrInsufficientStock : GoErr := GoErr.plain "insufficient stock available"

/-- `internal/domain/inventory/errors.go`: `ErrInvalidQuantity`. -/
def ErrInvalidQuantity : GoErr := GoErr.plain "quantity must be non-negative"

/-- `internal/domain/inventory/entity.go`: the `Inventory` entity (private
fields exposed in Go through getter methods, modelled as projections). -/
structure Inventory where
  id : String
  productID : String
  quantity : Int
  reservedQuantity : Int
  location : String
  createdAt : GoTime
  updatedAt : GoTime
deriving Repr, DecidableEq

/-- `NewInventory(id, productID, quantity, location)`; `time.Now()` is the
`now` argument. -/
def NewInventory (id productID : String) (quantity : Int) (location : String)
    (now : GoTime) : Except GoErr Inventory :=
  if id = "" then Except.error (GoErr.plain "inventory id cannot be empty")
  else if productID = "" then Except.error (GoErr.plain "product id cannot be empty")
  else if quantity < 0 then Except.error ErrInvalidQuantity
  else Except.ok
    { id := id, productID := productID, quantity := quantity,
      reservedQuantity := 0, location := location,
      createdAt := now, updatedAt := now }

/-- `ReconstructInventory`: trusted factory used when loading from the
database; performs no validation. -/
def ReconstructInventory (id productID : String) (quantity reservedQuantity : Int)
    (location : String) (createdAt updatedAt : GoTime) : Inventory :=
  { id := id, productID := productID, quantity := quantity,
    reservedQuantity := reservedQuantity, location := location,
    createdAt := createdAt, updatedAt := updatedAt }

/-- `(*Inventory).AvailableQuantity()`: `quantity - reservedQuantity`. -/
def Inventory.AvailableQuantity (i : Inventory) : Int :=
  i.quantity - i.reservedQuantity

/-- `(*Inventory).Reserve(quantity)`: result is (returned error, receiver
after the call). -/
def Inventory.Reserve (i : Inventory) (quantity : Int) (now : GoTime) :
    Option GoErr × Inventory :=
  if quantity ≤ 0 then (some ErrInvalidQuantity, i)
  else if i.AvailableQuantity < quantity then (some ErrInsufficientStock, i)
  else (none, { i with reservedQuantity := i.reservedQuantity + quantity,
                       updatedAt := now })

/-- `(*Inventory).Release(quantity)`: result is (returned error, receiver
after the call). -/
def Inventory.Release (i : Inventory) (quantity : Int) (now : GoTime) :
    Option GoErr × Inventory :=
  if quantity ≤ 0 then (some ErrInvalidQuantity, i)
  else if i.reservedQuantity < quantity then
    (some (GoErr.plain "cannot release more than reserved quantity"), i)
  else (none, { i with reservedQuantity := i.reservedQuantity - quantity,
                       updatedAt := now })

/-- `(*Inventory).AdjustQuantity(adjustment)`: result is (returned error,
receiver after the call). -/
def Inventory.AdjustQuantity (i : Inventory) (adjustment : Int) (now : GoTime) :
    Option GoErr × Inventory :=
  let newQuantity := i.quantity + adjustment
  if newQuantity < 0 then (some ErrInvalidQuantity, i)
  else if newQuantity < i.reservedQuantity then
    (some (GoErr.plain "cannot adjust quantity below reserved amount"), i)
  else (none, { i with quantity := newQuantity, updatedAt := now })

/-- The spec's Inventory invariant: `quantity ≥ reservedQuantity ≥ 0`. -/
def InvariantHolds (i : Inventory) : Prop :=
  i.reservedQuantity ≤ i.quantity ∧ 0 ≤ i.reservedQuantity

instance (i : Inventory) : Decidable (InvariantHolds i) := by
  unfold InvariantHolds; infer_instance

/-- An operation result either succeeded with the invariant intact, or
failed with the receiver exactly as it was before the call. -/
def PreservesFrom (i : Inventory) (r : Option GoErr × Inventory) : Prop :=
  match r.1 with
  | none => InvariantHolds r.2
  | some _ => r.2 = i

end inventory

section DomainClaims

open inventory

/-- C1 counterexample: the spec words the invariant-preservation property
for all Inventory states, but from the reconstructed state with
quantity = 5 and reservedQuantity = 10 (reachable via
`ReconstructInventory`, which performs no validation), `Release(3)`
succeeds and leaves a state with quantity 5 < reservedQuantity 7, so the
all-states wording fails. -/
theorem c1_counterexample :
    ((ReconstructInventory "inv-1" "prod-1" 5 10 "aisle-1" 0 0).Release 3 1).1 = none ∧
    ¬ InvariantHolds ((ReconstructInventory "inv-1" "prod-1" 5 10 "aisle-1" 0 0).Release 3 1).2 := by
  decide

/-- C1 (amended): for every Inventory state satisfying
`quantity ≥ reservedQuantity ≥ 0`, each of `Reserve`, `Release` and
`AdjustQuantity` either succeeds and re-establishes the invariant, or
returns an error leaving every field of the entity unchanged. -/
theorem c1_inventory_invariant_preserved (i : Inventory) (q δ : Int) (now : GoTime)
    (hinv : InvariantHolds i) :
    PreservesFrom i (i.Reserve q now) ∧
    PreservesFrom i (i.Release q now) ∧
    PreservesFrom i (i.AdjustQuantity δ now) := by
  obtain ⟨h1, h2⟩ := hinv
  refine ⟨?_, ?_, ?_⟩
  · unfold Inventory.Reserve
    split_ifs with hq hav
    · exact rfl
    · exact rfl
    · simp only [Inventory.AvailableQuantity] at hav
      exact ⟨by simp; omega, by simp; omega⟩
  · unfold Inventory.Release
    split_ifs with hq hr
    · exact rfl
    · exact rfl
    · exact ⟨by simp; omega, by simp; omega⟩
  · unfold Inventory.AdjustQuantity
    simp only
    split_ifs with hneg hres
    · exact rfl
    · exact rfl
    · exact ⟨by simp; omega, by simp; omega⟩

/-- C1 witness: the amended theorem applied at a concrete invariant-holding
state. -/
theorem c1_witness :
    InvariantHolds (ReconstructInventory "inv-1" "prod-1" 10 2 "aisle-1" 0 0) ∧
    (PreservesFrom (ReconstructInventory "inv-1" "prod-1" 10 2 "aisle-1" 0 0)
      ((ReconstructInventory "inv-1" "prod-1" 10 2 "aisle-1" 0 0).Reserve 3 7) ∧
     PreservesFrom (ReconstructInventory "inv-1" "prod-1" 10 2 "aisle-1" 0 0)
      ((ReconstructInventory "inv-1" "prod-1" 10 2 "aisle-1" 0 0).Release 3 7) ∧
     PreservesFrom (ReconstructInventory "inv-1" "prod-1" 10 2 "aisle-1" 0 0)
      ((ReconstructInventory "inv-1" "prod-1" 10 2 "aisle-1" 0 0).AdjustQuantity (-4) 7)) :=
  ⟨by decide, c1_inventory_invariant_preserved _ 3 (-4) 7 (by decide)⟩

/-- C4: `AdjustQuantity(delta)` computes `newQuantity = quantity + delta`,
fails with `ErrInvalidQuantity` when `newQuantity < 0`, fails (leaving the
entity unchanged) when `newQuantity < reservedQuantity`, and otherwise sets
`quantity := newQuantity` and refreshes `updatedAt`; moreover, from
quantity = 50 and reservedQuantity = 10, `AdjustQuantity(-60)` fails with
`ErrInvalidQuantity` and `AdjustQuantity(-40)` succeeds yielding
quantity = 10 and availableQuantity = 0. -/
theorem c4_adjustQuantity_spec (i : Inventory) (δ : Int) (now : GoTime) :
    (i.quantity + δ < 0 →
      i.AdjustQuantity δ now = (some ErrInvalidQuantity, i)) ∧
    (¬ i.quantity + δ < 0 → i.quantity + δ < i.reservedQuantity →
      (i.AdjustQuantity δ now).1.isSome = true ∧ (i.AdjustQuantity δ now).2 = i) ∧
    (¬ i.quantity + δ < 0 → ¬ i.quantity + δ < i.reservedQuantity →
      i.AdjustQuantity δ now =
        (none, { i with quantity := i.quantity + δ, updatedAt := now })) ∧
    ((ReconstructInventory "inv-1" "p1" 50 10 "loc" 0 0).AdjustQuantity (-60) now).1
        = some ErrInvalidQuantity ∧
    ((ReconstructInventory "inv-1" "p1" 50 10 "loc" 0 0).AdjustQuantity (-40) now).1 = none ∧
    ((ReconstructInventory "inv-1" "p1" 50 10 "loc" 0 0).AdjustQuantity (-40) now).2.quantity = 10 ∧
    ((ReconstructInventory "inv-1" "p1" 50 10 "loc" 0 0).AdjustQuantity (-40) now).2.AvailableQuantity = 0 := by
  refine ⟨?_, ?_, ?_, ?_, ?_, ?_, ?_⟩
  · intro h
    unfold Inventory.AdjustQuantity
    simp only [if_pos h]
  · intro h1 h2
    unfold Inventory.AdjustQuantity
    simp only [if_neg h1, if_pos h2]
    exact ⟨by simp, by simp⟩
  · intro h1 h2
    unfold Inventory.AdjustQuantity
    simp only [if_neg h1, if_neg h2]
  · simp [Inventory.AdjustQuantity, ReconstructInventory]
  · simp [Inventory.AdjustQuantity, ReconstructInventory]
  · simp [Inventory.AdjustQuantity, ReconstructInventory]
  · simp [Inventory.AdjustQuantity, Inventory.AvailableQuantity, ReconstructInventory]

/-- C4 witness: the theorem applied at a concrete state and delta. -/
theorem c4_witness :
    (ReconstructInventory "inv-2" "p2" 5 2 "loc" 0 0).AdjustQuantity (-10) 3
      = (some ErrInvalidQuantity, ReconstructInventory "inv-2" "p2" 5 2 "loc" 0 0) :=
  (c4_adjustQuantity_spec (ReconstructInventory "inv-2" "p2" 5 2 "loc" 0 0) (-10) 3).1
    (by decide)

/-- C8 counterexample: from the reconstructed state with quantity = 0 and
reservedQuantity = -5 (reachable via `ReconstructInventory`, which performs
no validation), `Reserve(1)` succeeds (available = 5 ≥ 1) but the
immediately following `Release(1)` fails (reservedQuantity -4 < 1), so the
claim does not hold for every Inventory state. -/
theorem c8_counterexample :
    (((ReconstructInventory "inv-1" "p1" 0 (-5) "" 0 0).Reserve 1 1).1 = none) ∧
    ((((ReconstructInventory "inv-1" "p1" 0 (-5) "" 0 0).Reserve 1 1).2.Release 1 2).1.isSome = true) := by
  decide

/-- C8 (amended): for every Inventory state with `reservedQuantity ≥ 0`,
if `Reserve(q)` succeeds then an immediately following `Release(q)` also
succeeds, restores `reservedQuantity` to its value before the Reserve, and
leaves `quantity` unchanged. -/
theorem c8_reserve_release (i : Inventory) (q : Int) (n1 n2 : GoTime)
    (hres : 0 ≤ i.reservedQuantity)
    (hok : (i.Reserve q n1).1 = none) :
    (((i.Reserve q n1).2.Release q n2).1 = none) ∧
    (((i.Reserve q n1).2.Release q n2).2.reservedQuantity = i.reservedQuantity) ∧
    (((i.Reserve q n1).2.Release q n2).2.quantity = i.quantity) := by
  unfold Inventory.Reserve at hok ⊢
  split_ifs at hok ⊢ with hq hav
  simp only [Inventory.AvailableQuantity] at hav
  unfold Inventory.Release
  split_ifs with h1
  · exfalso
    simp at h1
    omega
  · refine ⟨rfl, ?_, ?_⟩ <;> simp

/-- C8 witness: the amended theorem applied at a concrete state. -/
theorem c8_witness :
    (0 ≤ (ReconstructInventory "inv-1" "p1" 10 2 "loc" 0 0).reservedQuantity ∧
     ((ReconstructInventory "inv-1" "p1" 10 2 "loc" 0 0).Reserve 3 5).1 = none) ∧
    ((((ReconstructInventory "inv-1" "p1" 10 2 "loc" 0 0).Reserve 3 5).2.Release 3 6).1 = none ∧
     (((ReconstructInventory "inv-1" "p1" 10 2 "loc" 0 0).Reserve 3 5).2.Release 3 6).2.reservedQuantity = 2 ∧
     (((ReconstructInventory "inv-1" "p1" 10 2 "loc" 0 0).Reserve 3 5).2.Release 3 6).2.quantity = 10) :=
  ⟨⟨by decide, by decide⟩,
   c8_reserve_release (ReconstructInventory "inv-1" "p1" 10 2 "loc" 0 0) 3 5 6
     (by decide) (by decide)⟩

end DomainClaims

namespace product

/-- `internal/domain/product` (part of `unnamed/part_012`): the `Price`
value object. -/
structure Price where
  amount : GoFloat
  currency : String
deriving Repr, DecidableEq

/-- `internal/domain/product` entity (fields exposed through getters,
modelled as projections). -/
structure Product where
  id : String
  name : String
  price : Price
  createdAt : GoTime
  updatedAt : GoTime
deriving Repr, DecidableEq

/-- `internal/domain/product/entity.go`:
`ErrProductNotFound = errors.New(errors.CodeProductNotFound, "product not found")`. -/
def ErrProductNotFound : GoErr :=
  apperrors.New apperrors.CodeProductNotFound "product not found"

/-- The `GetProductOutput` DTO as used by
`internal/application/product/get.go` and defined (with the optional
inventory fields) in `internal/application/product/query/get.go`. -/
structure GetProductOutput where
  ID : String
  Name : String
  PriceAmount : GoFloat
  PriceCurrency : String
  CreatedAt : GoTime
  UpdatedAt : GoTime
  HasInventory : Bool
  StockQuantity : Int
  AvailableQuantity : Int
deriving Repr, DecidableEq

/-- The `InventoryData` interface of
`internal/application/product/get.go`, modelled as the record of its two
methods' results. -/
structure InventoryData where
  GetQuantity : Int
  GetAvailableQuantity : Int
deriving Repr, DecidableEq

/-- `internal/application/product/get.go` `GetProductUseCase.Execute`:
the product repository `GetByID` and the optional inventory collaborator
are passed as oracles; a `none` collaborator models the use case built by
`NewGetProductUseCase` (no inventory integration). Fields not assigned in
the Go output literal carry Go zero values (`false`, `0`). -/
def GetProductUseCase.Execute
    (getByID : String → Except GoErr (Option Product))
    (inventoryUseCase : Option (String → Except GoErr InventoryData))
    (productID : String) : Except GoErr GetProductOutput :=
  if productID = "" then
    Except.error (apperrors.New apperrors.CodeInvalidProductID "product ID is required")
  else
    match getByID productID with
    | Except.error e => Except.error (apperrors.WrapDatabaseError e)
    | Except.ok none => Except.error ErrProductNotFound
    | Except.ok (some prod) =>
      let output : GetProductOutput :=
        { ID := prod.id
          Name := prod.name
          PriceAmount := prod.price.amount
          PriceCurrency := prod.price.currency
          CreatedAt := prod.createdAt
          UpdatedAt := prod.updatedAt
          HasInventory := false
          StockQuantity := 0
          AvailableQuantity := 0 }
      match inventoryUseCase with
      | none => Except.ok output
      | some uc =>
        match uc productID with
        | Except.ok inventoryData =>
          Except.ok { output with
            HasInventory := true
            StockQuantity := inventoryData.GetQuantity
            AvailableQuantity := inventoryData.GetAvailableQuantity }
        | Except.error _ => Except.ok output

end product

namespace query

/-- `unnamed/part_001` (package `query`): `InventoryOutput`. -/
structure InventoryOutput where
  Quantity : Int
  AvailableQuantity : Int
deriving Repr, DecidableEq

/-- `unnamed/part_001`: `InventoryAdapter` wraps a possibly-nil
`*InventoryOutput`. -/
structure InventoryAdapter where
  output : Option InventoryOutput
deriving Repr, DecidableEq

/-- `unnamed/part_001`: `NewInventoryAdapter(output)`. -/
def NewInventoryAdapter (output : Option InventoryOutput) : InventoryAdapter :=
  { output := output }

/-- `unnamed/part_001`: `(*InventoryAdapter).GetQuantity()` — returns 0 when
the wrapped output is nil. -/
def InventoryAdapter.GetQuantity (a : InventoryAdapter) : Int :=
  match a.output with
  | none => 0
  | some o => o.Quantity

/-- `unnamed/part_001`: `(*InventoryAdapter).GetAvailableQuantity()` —
returns 0 when the wrapped output is nil. -/
def InventoryAdapter.GetAvailableQuantity (a : InventoryAdapter) : Int :=
  match a.output with
  | none => 0
  | some o => o.AvailableQuantity

/-- The coercion of an `InventoryAdapter` to the `InventoryData` interface
value consumed by the Product module (record of its methods). -/
def InventoryAdapter.toInventoryData (a : InventoryAdapter) : product.InventoryData :=
  { GetQuantity := a.GetQuantity, GetAvailableQuantity := a.GetAvailableQuantity }

/-- `unnamed/part_001`: `(*ProductInventoryAdapter).Execute` — calls the
wrapped inventory query function and adapts the result. -/
def ProductInventoryAdapter.Execute
    (inventoryQuery : String → Except GoErr (Option InventoryOutput))
    (productID : String) : Except GoErr product.InventoryData :=
  match inventoryQuery productID with
  | Except.error e => Except.error e
  | Except.ok output => Except.ok (NewInventoryAdapter output).toInventoryData

/-- `unnamed/part_005` (package `query`): `GetInventoryOutput`. -/
structure GetInventoryOutput where
  ID : String
  ProductID : String
  ProductName : String
  ProductPrice : GoFloat
  ProductCurrency : String
  Quantity : Int
  ReservedQuantity : Int
  AvailableQuantity : Int
  Location : String
  CreatedAt : GoTime
  UpdatedAt : GoTime
deriving Repr, DecidableEq

/-- `unnamed/part_005`: `GetInventoryQuery.Execute` — the inventory query
repository `GetByProductID` and the Product collaborator
(`ProductQueryInterface.Execute`) are passed as oracles. -/
def GetInventoryQuery.Execute
    (getByProductID : String → Except GoErr (Option inventory.Inventory))
    (productQuery : String → Except GoErr product.GetProductOutput)
    (productID : String) : Except GoErr GetInventoryOutput :=
  if productID = "" then
    Except.error (apperrors.New apperrors.CodeInvalidInput "product ID is required")
  else
    match getByProductID productID with
    | Except.error e => Except.error (apperrors.WrapDatabaseError e)
    | Except.ok none => Except.error inventory.ErrInventoryNotFound
    | Except.ok (some inv) =>
      match productQuery productID with
      | Except.error e =>
        if apperrors.Is e apperrors.CodeProductNotFound then
          Except.ok { ID := inv.id
                      ProductID := inv.productID
                      ProductName := "Unknown (Product Deleted)"
                      ProductPrice := 0
                      ProductCurrency := ""
                      Quantity := inv.quantity
                      ReservedQuantity := inv.reservedQuantity
                      AvailableQuantity := inv.AvailableQuantity
                      Location := inv.location
                      CreatedAt := inv.createdAt
                      UpdatedAt := inv.updatedAt }
        else
          Except.error e
      | Except.ok productOutput =>
        Except.ok { ID := inv.id
                    ProductID := inv.productID
                    ProductName := productOutput.Name
                    ProductPrice := productOutput.PriceAmount
                    ProductCurrency := productOutput.PriceCurrency
                    Quantity := inv.quantity
                    ReservedQuantity := inv.reservedQuantity
                    AvailableQuantity := inv.AvailableQuantity
                    Location := inv.location
                    CreatedAt := inv.createdAt
                    UpdatedAt := inv.updatedAt }

end query

namespace command

/-- `internal/application/inventory/command/create.go`: `CreateInventoryInput`. -/
structure CreateInventoryInput where
  ProductID : String
  Quantity : Int
  Location : String
deriving Repr, DecidableEq

/-- `internal/application/inventory/command/create.go`: `CreateInventoryOutput`. -/
structure CreateInventoryOutput where
  ID : String
  ProductID : String
  ProductName : String
  Quantity : Int
  ReservedQuantity : Int
  AvailableQuantity : Int
  Location : String
  CreatedAt : GoTime
  UpdatedAt : GoTime
deriving Repr, DecidableEq

/-- `internal/application/inventory/command/create.go`
`CreateInventoryCommand.Execute`, generic over the persistence state `σ`:
`getByProductID` and `create` are the command/query repository operations,
`productQuery` is the Product collaborator, `uuid` is the value of
`uuid.New().String()` and `now` the value of `time.Now()`.  The result is
(returned value or error, store state after the call). -/
def CreateInventoryCommand.Execute {σ : Type}
    (getByProductID : σ → String → Except GoErr (Option inventory.Inventory))
    (create : σ → inventory.Inventory → Except GoErr σ)
    (productQuery : String → Except GoErr product.GetProductOutput)
    (s : σ) (input : CreateInventoryInput) (uuid : String) (now : GoTime) :
    Except GoErr CreateInventoryOutput × σ :=
  if input.ProductID = "" then
    (Except.error (apperrors.New apperrors.CodeInvalidInput "product ID is required"), s)
  else if input.Quantity < 0 then
    (Except.error inventory.ErrInvalidQuantity, s)
  else
    match productQuery input.ProductID with
    | Except.error e =>
      if apperrors.Is e apperrors.CodeProductNotFound then
        (Except.error (apperrors.New apperrors.CodeProductNotFound
          "cannot create inventory: product not found"), s)
      else
        (Except.error e, s)
    | Except.ok productOutput =>
      match getByProductID s input.ProductID with
      | Except.error e => (Except.error (apperrors.WrapDatabaseError e), s)
      | Except.ok (some _) => (Except.error inventory.ErrInventoryExists, s)
      | Except.ok none =>
        match inventory.NewInventory uuid input.ProductID input.Quantity input.Location now with
        | Except.error e => (Except.error e, s)
        | Except.ok inv =>
          match create s inv with
          | Except.error e => (Except.error (apperrors.WrapDatabaseError e), s)
          | Except.ok s2 =>
            (Except.ok { ID := inv.id
                         ProductID := inv.productID
                         ProductName := productOutput.Name
                         Quantity := inv.quantity
                         ReservedQuantity := inv.reservedQuantity
                         AvailableQuantity := inv.AvailableQuantity
                         Location := inv.location
                         CreatedAt := inv.createdAt
                         UpdatedAt := inv.updatedAt }, s2)

/-- `unnamed/part_006`: `AdjustInventoryInput`. -/
structure AdjustInventoryInput where
  ProductID : String
  Adjustment : Int
  Reason : String
deriving Repr, DecidableEq

/-- `unnamed/part_006`: `AdjustInventoryOutput`. -/
structure AdjustInventoryOutput where
  ID : String
  ProductID : String
  ProductName : String
  Quantity : Int
  ReservedQuantity : Int
  AvailableQuantity : Int
  Location : String
  UpdatedAt : GoTime
deriving Repr, DecidableEq

/-- `unnamed/part_006` `AdjustInventoryCommand.Execute`, generic over the
persistence state `σ`.  The overall `Option` models the one Go execution
that is not a return: building the output dereferences the re-read row
(`updatedInv.ID()` etc.) without a nil check, so a re-read that succeeds
with a nil row makes the Go code panic — modelled as `none`.  Every
ordinary return is `some (result, store state after the call)`.  The
in-memory entity validation `inv.AdjustQuantity(...)` mutates only the
discarded local copy in Go, so only its returned error is consulted. -/
def AdjustInventoryCommand.Execute {σ : Type}
    (getByProductID : σ → String → Except GoErr (Option inventory.Inventory))
    (adjustStock : σ → String → Int → Except GoErr σ)
    (productQuery : String → Except GoErr product.GetProductOutput)
    (s : σ) (input : AdjustInventoryInput) (now : GoTime) :
    Option (Except GoErr AdjustInventoryOutput × σ) :=
  if input.ProductID = "" then
    some (Except.error (apperrors.New apperrors.CodeInvalidInput "product ID is required"), s)
  else if input.Adjustment = 0 then
    some (Except.error (apperrors.New apperrors.CodeInvalidAdjustment "adjustment cannot be zero"), s)
  else
    match productQuery input.ProductID with
    | Except.error e =>
      if apperrors.Is e apperrors.CodeProductNotFound then
        some (Except.error (apperrors.New apperrors.CodeProductNotFound
          "cannot adjust inventory: product not found"), s)
      else
        some (Except.error e, s)
    | Except.ok productOutput =>
      match getByProductID s input.ProductID with
      | Except.error e => some (Except.error (apperrors.WrapDatabaseError e), s)
      | Except.ok none => some (Except.error inventory.ErrInventoryNotFound, s)
      | Except.ok (some inv) =>
        match (inv.AdjustQuantity input.Adjustment now).1 with
        | some e => some (Except.error e, s)
        | none =>
          match adjustStock s input.ProductID input.Adjustment with
          | Except.error e => some (Except.error (apperrors.WrapDatabaseError e), s)
          | Except.ok s2 =>
            match getByProductID s2 input.ProductID with
            | Except.error e => some (Except.error (apperrors.WrapDatabaseError e), s2)
            | Except.ok none => none
            | Except.ok (some updatedInv) =>
              some (Except.ok { ID := updatedInv.id
                                ProductID := updatedInv.productID
                                ProductName := productOutput.Name
                                Quantity := updatedInv.quantity
                                ReservedQuantity := updatedInv.reservedQuantity
                                AvailableQuantity := updatedInv.AvailableQuantity
                                Location := updatedInv.location
                                UpdatedAt := updatedInv.updatedAt }, s2)

end command

/-- The sequential in-memory inventory store: one row per productID, the
semantics of the InventoryStore collaborator (`GetInventoryByProductID`,
`CreateInventory`, `AdjustInventoryQuantity` in the repository's SQL) when
the store is modified by no one else. -/
structure InventoryStore where
  rows : List (String × inventory.Inventory)
deriving Repr, DecidableEq

namespace InventoryStore

/-- `GetByProductID`: lookup by product id, `nil` when absent, never an
error in the sequential in-memory model. -/
def getByProductID (s : InventoryStore) (productID : String) :
    Except GoErr (Option inventory.Inventory) :=
  Except.ok (s.rows.lookup productID)

/-- `Create`: inserts the row keyed by the entity's productID. -/
def create (s : InventoryStore) (inv : inventory.Inventory) :
    Except GoErr InventoryStore :=
  Except.ok ⟨(inv.productID, inv) :: s.rows⟩

/-- `AdjustStock`, per the repository's SQL
(`UPDATE inventory SET quantity = quantity + $2, updated_at = $3 WHERE
product_id = $1`): `now` is the `time.Now()` the repository passes for
`updated_at`. -/
def adjustStock (now : GoTime) (s : InventoryStore) (productID : String)
    (adjustment : Int) : Except GoErr InventoryStore :=
  Except.ok ⟨s.rows.map fun r =>
    if r.1 = productID then
      (r.1, { r.2 with quantity := r.2.quantity + adjustment, updatedAt := now })
    else r⟩

end InventoryStore

/-- A sample inventory row used by concrete witnesses. -/
def sampleInv : inventory.Inventory :=
  inventory.ReconstructInventory "inv-1" "p1" 7 2 "loc-a" 3 4

/-- A sample product used by concrete witnesses. -/
def sampleProd : product.Product :=
  { id := "p1", name := "Widget", price := { amount := 10, currency := "USD" },
    createdAt := 1, updatedAt := 2 }

/-- A sample product collaborator output used by concrete witnesses. -/
def samplePO : product.GetProductOutput :=
  { ID := "p1", Name := "Widget", PriceAmount := 10, PriceCurrency := "USD",
    CreatedAt := 1, UpdatedAt := 2, HasInventory := false,
    StockQuantity := 0, AvailableQuantity := 0 }

section QueryClaims

/-- C2: for a non-empty productID whose inventory row exists, if the Product
collaborator fails with a ProductNotFound error then `GetInventoryQuery.Execute`
still succeeds with the stored inventory fields, the sentinel product name
"Unknown (Product Deleted)", product price 0 and empty currency; any other
collaborator error is returned as is. -/
theorem c2_getInventory_product_deleted
    (getByProductID : String → Except GoErr (Option inventory.Inventory))
    (productQuery : String → Except GoErr product.GetProductOutput)
    (productID : String) (inv : inventory.Inventory) (e : GoErr)
    (hpid : productID ≠ "")
    (hrow : getByProductID productID = Except.ok (some inv))
    (herr : productQuery productID = Except.error e) :
    query.GetInventoryQuery.Execute getByProductID productQuery productID =
      (if apperrors.Is e apperrors.CodeProductNotFound then
        Except.ok { ID := inv.id
                    ProductID := inv.productID
                    ProductName := "Unknown (Product Deleted)"
                    ProductPrice := 0
                    ProductCurrency := ""
                    Quantity := inv.quantity
                    ReservedQuantity := inv.reservedQuantity
                    AvailableQuantity := inv.AvailableQuantity
                    Location := inv.location
                    CreatedAt := inv.createdAt
                    UpdatedAt := inv.updatedAt }
      else Except.error e) := by
  unfold query.GetInventoryQuery.Execute
  rw [if_neg hpid, hrow]
  dsimp only
  rw [herr]

/-- C2 witness: the theorem applied with a concrete row and the concrete
ProductNotFound collaborator error. -/
theorem c2_witness :
    ("p1" : String) ≠ "" ∧
    query.GetInventoryQuery.Execute (fun _ => Except.ok (some sampleInv))
        (fun _ => Except.error product.ErrProductNotFound) "p1" =
      (if apperrors.Is product.ErrProductNotFound apperrors.CodeProductNotFound then
        Except.ok { ID := sampleInv.id
                    ProductID := sampleInv.productID
                    ProductName := "Unknown (Product Deleted)"
                    ProductPrice := 0
                    ProductCurrency := ""
                    Quantity := sampleInv.quantity
                    ReservedQuantity := sampleInv.reservedQuantity
                    AvailableQuantity := sampleInv.AvailableQuantity
                    Location := sampleInv.location
                    CreatedAt := sampleInv.createdAt
                    UpdatedAt := sampleInv.updatedAt }
      else Except.error product.ErrProductNotFound) :=
  ⟨by decide,
   c2_getInventory_product_deleted _ _ "p1" sampleInv product.ErrProductNotFound
     (by decide) rfl rfl⟩

/-- C3: for a non-empty productID for which the product store returns a
product, `GetProductUseCase.Execute` (with a configured inventory lookup)
returns the product data without error whatever the lookup does: lookup
success attaches HasInventory = true and the looked-up quantities; lookup
failure leaves HasInventory = false and zero stock fields. -/
theorem c3_getProduct_enrichment
    (getByID : String → Except GoErr (Option product.Product))
    (uc : String → Except GoErr product.InventoryData)
    (productID : String) (prod : product.Product)
    (hpid : productID ≠ "")
    (hprod : getByID productID = Except.ok (some prod)) :
    (∀ d, uc productID = Except.ok d →
      product.GetProductUseCase.Execute getByID (some uc) productID =
        Except.ok { ID := prod.id
                    Name := prod.name
                    PriceAmount := prod.price.amount
                    PriceCurrency := prod.price.currency
                    CreatedAt := prod.createdAt
                    UpdatedAt := prod.updatedAt
                    HasInventory := true
                    StockQuantity := d.GetQuantity
                    AvailableQuantity := d.GetAvailableQuantity }) ∧
    (∀ e, uc productID = Except.error e →
      product.GetProductUseCase.Execute getByID (some uc) productID =
        Except.ok { ID := prod.id
                    Name := prod.name
                    PriceAmount := prod.price.amount
                    PriceCurrency := prod.price.currency
                    CreatedAt := prod.createdAt
                    UpdatedAt := prod.updatedAt
                    HasInventory := false
                    StockQuantity := 0
                    AvailableQuantity := 0 }) := by
  constructor
  · intro d hd
    unfold product.GetProductUseCase.Execute
    rw [if_neg hpid, hprod]
    dsimp only
    rw [hd]
  · intro e he
    unfold product.GetProductUseCase.Execute
    rw [if_neg hpid, hprod]
    dsimp only
    rw [he]

/-- C3 witness: the theorem applied with a concrete product, a succeeding
lookup and a failing lookup. -/
theorem c3_witness :
    (("p1" : String) ≠ "" ∧
     (fun _ => Except.ok (some sampleProd) : String → Except GoErr (Option product.Product)) "p1"
       = Except.ok (some sampleProd)) ∧
    product.GetProductUseCase.Execute (fun _ => Except.ok (some sampleProd))
        (some fun _ => Except.ok { GetQuantity := 7, GetAvailableQuantity := 5 }) "p1" =
      Except.ok { ID := sampleProd.id
                  Name := sampleProd.name
                  PriceAmount := sampleProd.price.amount
                  PriceCurrency := sampleProd.price.currency
                  CreatedAt := sampleProd.createdAt
                  UpdatedAt := sampleProd.updatedAt
                  HasInventory := true
                  StockQuantity := ({ GetQuantity := 7, GetAvailableQuantity := 5 } : product.InventoryData).GetQuantity
                  AvailableQuantity := ({ GetQuantity := 7, GetAvailableQuantity := 5 } : product.InventoryData).GetAvailableQuantity } :=
  ⟨⟨by decide, rfl⟩,
   (c3_getProduct_enrichment (fun _ => Except.ok (some sampleProd))
       (fun _ => Except.ok { GetQuantity := 7, GetAvailableQuantity := 5 })
       "p1" sampleProd (by decide) rfl).1
     { GetQuantity := 7, GetAvailableQuantity := 5 } rfl⟩

/-- C7 counterexample: `GetProductUseCase.Execute` with an empty id fails
with the error built from `CodeInvalidProductID` ("INVALID_PRODUCT_ID"),
which is not the InvalidInput code ("INVALID_INPUT") the claim names. -/
theorem c7_counterexample :
    product.GetProductUseCase.Execute (fun _ => Except.ok none) none "" =
      Except.error (GoErr.appError "INVALID_PRODUCT_ID" "product ID is required") ∧
    apperrors.Is (GoErr.appError "INVALID_PRODUCT_ID" "product ID is required")
      apperrors.CodeInvalidInput = false ∧
    apperrors.Is (GoErr.appError "INVALID_PRODUCT_ID" "product ID is required")
      apperrors.CodeInvalidProductID = true :=
  ⟨rfl, by decide, by decide⟩

/-- C7 (amended): an empty id fails with an InvalidProductID error whatever
the store and collaborator are (so the store is not consulted), and a
non-empty id for which the store returns no product and no storage error
fails with the ProductNotFound error. -/
theorem c7_getProduct_validation
    (getByID : String → Except GoErr (Option product.Product))
    (inventoryUseCase : Option (String → Except GoErr product.InventoryData))
    (productID : String)
    (hpid : productID ≠ "")
    (hnone : getByID productID = Except.ok none) :
    product.GetProductUseCase.Execute getByID inventoryUseCase "" =
      Except.error (apperrors.New apperrors.CodeInvalidProductID "product ID is required") ∧
    product.GetProductUseCase.Execute getByID inventoryUseCase productID =
      Except.error product.ErrProductNotFound := by
  constructor
  · unfold product.GetProductUseCase.Execute
    rw [if_pos rfl]
  · unfold product.GetProductUseCase.Execute
    rw [if_neg hpid, hnone]

/-- C7 witness: the amended theorem applied with a concrete empty store. -/
theorem c7_witness :
    (("p1" : String) ≠ "" ∧
     (fun _ => Except.ok none : String → Except GoErr (Option product.Product)) "p1"
       = Except.ok none) ∧
    (product.GetProductUseCase.Execute (fun _ => Except.ok none) none "" =
      Except.error (apperrors.New apperrors.CodeInvalidProductID "product ID is required") ∧
     product.GetProductUseCase.Execute (fun _ => Except.ok none) none "p1" =
      Except.error product.ErrProductNotFound) :=
  ⟨⟨by decide, rfl⟩, c7_getProduct_validation (fun _ => Except.ok none) none "p1" (by decide) rfl⟩

/-- C10: when the inventory lookup goes through `ProductInventoryAdapter`
over a query that succeeds with a nil payload, the adapter's accessors
return 0 and `GetProductUseCase.Execute` reports HasInventory = true with
both stock fields 0. -/
theorem c10_nil_payload_enrichment
    (getByID : String → Except GoErr (Option product.Product))
    (inventoryQuery : String → Except GoErr (Option query.InventoryOutput))
    (productID : String) (prod : product.Product)
    (hpid : productID ≠ "")
    (hprod : getByID productID = Except.ok (some prod))
    (hq : inventoryQuery productID = Except.ok none) :
    (query.NewInventoryAdapter none).GetQuantity = 0 ∧
    (query.NewInventoryAdapter none).GetAvailableQuantity = 0 ∧
    product.GetProductUseCase.Execute getByID
        (some (query.ProductInventoryAdapter.Execute inventoryQuery)) productID =
      Except.ok { ID := prod.id
                  Name := prod.name
                  PriceAmount := prod.price.amount
                  PriceCurrency := prod.price.currency
                  CreatedAt := prod.createdAt
                  UpdatedAt := prod.updatedAt
                  HasInventory := true
                  StockQuantity := 0
                  AvailableQuantity := 0 } := by
  refine ⟨rfl, rfl, ?_⟩
  unfold product.GetProductUseCase.Execute
  rw [if_neg hpid, hprod]
  dsimp only
  unfold query.ProductInventoryAdapter.Execute
  rw [hq]
  rfl

/-- C10 witness: the theorem applied with a concrete product and a lookup
succeeding with a nil payload. -/
theorem c10_witness :
    (("p1" : String) ≠ "" ∧
     (fun _ => Except.ok (some sampleProd) : String → Except GoErr (Option product.Product)) "p1"
       = Except.ok (some sampleProd) ∧
     (fun _ => Except.ok none : String → Except GoErr (Option query.InventoryOutput)) "p1"
       = Except.ok none) ∧
    ((query.NewInventoryAdapter none).GetQuantity = 0 ∧
     (query.NewInventoryAdapter none).GetAvailableQuantity = 0 ∧
     product.GetProductUseCase.Execute (fun _ => Except.ok (some sampleProd))
        (some (query.ProductInventoryAdapter.Execute (fun _ => Except.ok none))) "p1" =
      Except.ok { ID := sampleProd.id
                  Name := sampleProd.name
                  PriceAmount := sampleProd.price.amount
                  PriceCurrency := sampleProd.price.currency
                  CreatedAt := sampleProd.createdAt
                  UpdatedAt := sampleProd.updatedAt
                  HasInventory := true
                  StockQuantity := 0
                  AvailableQuantity := 0 }) :=
  ⟨⟨by decide, rfl, rfl⟩,
   c10_nil_payload_enrichment (fun _ => Except.ok (some sampleProd))
     (fun _ => Except.ok none) "p1" sampleProd (by decide) rfl rfl⟩

end QueryClaims

section SequentialStoreClaims

/-- Looking up `pid` after the `adjustStock` row update returns the looked-up
row with `quantity` incremented and `updatedAt` refreshed. -/
theorem lookup_after_adjustStock (rows : List (String × inventory.Inventory))
    (pid : String) (adj : Int) (now : GoTime) :
    (rows.map fun r => if r.1 = pid then
        (r.1, { r.2 with quantity := r.2.quantity + adj, updatedAt := now })
      else r).lookup pid
      = (rows.lookup pid).map
          fun v => { v with quantity := v.quantity + adj, updatedAt := now } := by
  induction rows with
  | nil => rfl
  | cons head tail ih =>
    obtain ⟨k, v⟩ := head
    simp only [List.map_cons]
    by_cases h : k = pid
    · subst h
      rw [if_pos (show (k, v).1 = k from rfl)]
      simp [List.lookup]
    · rw [if_neg (show ¬ (k, v).1 = pid from h)]
      simp [List.lookup, beq_false_of_ne (Ne.symm h), ih]

/-- C5: `CreateInventoryCommand.Execute` over the sequential in-memory store,
for a non-empty productID, quantity ≥ 0 and a non-empty generated uuid:
a ProductNotFound collaborator failure maps to the
"cannot create inventory: product not found" ProductNotFound error, any
other collaborator failure is returned unchanged, an existing row fails
with ErrInventoryExists leaving the store unchanged, and otherwise a new
inventory with reservedQuantity 0 is persisted and its view returned with
the collaborator's product name. -/
theorem c5_createInventory_spec
    (productQuery : String → Except GoErr product.GetProductOutput)
    (s : InventoryStore) (input : command.CreateInventoryInput)
    (uuid : String) (now : GoTime) (po : product.GetProductOutput) (e : GoErr)
    (hpid : input.ProductID ≠ "") (hqty : 0 ≤ input.Quantity) (huuid : uuid ≠ "") :
    (productQuery input.ProductID = Except.error e →
      apperrors.Is e apperrors.CodeProductNotFound = true →
      command.CreateInventoryCommand.Execute InventoryStore.getByProductID
          InventoryStore.create productQuery s input uuid now =
        (Except.error (apperrors.New apperrors.CodeProductNotFound
          "cannot create inventory: product not found"), s)) ∧
    (productQuery input.ProductID = Except.error e →
      apperrors.Is e apperrors.CodeProductNotFound = false →
      command.CreateInventoryCommand.Execute InventoryStore.getByProductID
          InventoryStore.create productQuery s input uuid now =
        (Except.error e, s)) ∧
    (∀ ex : inventory.Inventory, productQuery input.ProductID = Except.ok po →
      s.rows.lookup input.ProductID = some ex →
      command.CreateInventoryCommand.Execute InventoryStore.getByProductID
          InventoryStore.create productQuery s input uuid now =
        (Except.error inventory.ErrInventoryExists, s)) ∧
    (productQuery input.ProductID = Except.ok po →
      s.rows.lookup input.ProductID = none →
      command.CreateInventoryCommand.Execute InventoryStore.getByProductID
          InventoryStore.create productQuery s input uuid now =
        (Except.ok { ID := uuid
                     ProductID := input.ProductID
                     ProductName := po.Name
                     Quantity := input.Quantity
                     ReservedQuantity := 0
                     AvailableQuantity := input.Quantity
                     Location := input.Location
                     CreatedAt := now
                     UpdatedAt := now },
         { rows := (input.ProductID,
             { id := uuid
               productID := input.ProductID
               quantity := input.Quantity
               reservedQuantity := 0
               location := input.Location
               createdAt := now
               updatedAt := now }) :: s.rows })) := by
  have hq : ¬ input.Quantity < 0 := by omega
  refine ⟨?_, ?_, ?_, ?_⟩
  · intro hpq his
    unfold command.CreateInventoryCommand.Execute
    rw [if_neg hpid, if_neg hq, hpq]
    dsimp only
    rw [if_pos his]
  · intro hpq his
    unfold command.CreateInventoryCommand.Execute
    rw [if_neg hpid, if_neg hq, hpq]
    dsimp only
    rw [if_neg (by rw [his]; exact Bool.false_ne_true)]
  · intro ex hpq hex
    unfold command.CreateInventoryCommand.Execute
    rw [if_neg hpid, if_neg hq, hpq]
    dsimp only
    unfold InventoryStore.getByProductID
    rw [hex]
  · intro hpq hnone
    unfold command.CreateInventoryCommand.Execute
    rw [if_neg hpid, if_neg hq, hpq]
    dsimp only
    unfold InventoryStore.getByProductID
    rw [hnone]
    dsimp only
    unfold inventory.NewInventory
    rw [if_neg huuid, if_neg hpid, if_neg hq]
    dsimp only [InventoryStore.create]
    simp [inventory.Inventory.AvailableQuantity]

/-- C5 witness: the theorem's success branch applied over the empty store
with a concrete collaborator. -/
theorem c5_witness :
    (("p1" : String) ≠ "" ∧ (0 : Int) ≤ 5 ∧ ("u1" : String) ≠ "" ∧
     (fun _ => Except.ok samplePO : String → Except GoErr product.GetProductOutput) "p1"
       = Except.ok samplePO ∧
     (InventoryStore.mk []).rows.lookup "p1" = none) ∧
    command.CreateInventoryCommand.Execute InventoryStore.getByProductID
        InventoryStore.create (fun _ => Except.ok samplePO)
        (InventoryStore.mk []) (command.CreateInventoryInput.mk "p1" 5 "loc-b") "u1" 9 =
      (Except.ok { ID := "u1"
                   ProductID := "p1"
                   ProductName := samplePO.Name
                   Quantity := 5
                   ReservedQuantity := 0
                   AvailableQuantity := 5
                   Location := "loc-b"
                   CreatedAt := 9
                   UpdatedAt := 9 },
       { rows := [("p1",
           { id := "u1"
             productID := "p1"
             quantity := 5
             reservedQuantity := 0
             location := "loc-b"
             createdAt := 9
             updatedAt := 9 })] }) :=
  ⟨⟨by decide, by decide, by decide, rfl, rfl⟩,
   (c5_createInventory_spec (fun _ => Except.ok samplePO) (InventoryStore.mk [])
       (command.CreateInventoryInput.mk "p1" 5 "loc-b") "u1" 9 samplePO
       product.ErrProductNotFound (by decide) (by decide) (by decide)).2.2.2 rfl rfl⟩

/-- C9: over the sequential in-memory store, once the earlier read found a
row and the entity-level validation and the atomic `adjustStock` succeed,
the re-read row is present (no nil-pointer panic: the result is not `none`)
and the returned view carries the incremented quantity. -/
theorem c9_adjust_reread_safe
    (productQuery : String → Except GoErr product.GetProductOutput)
    (s : InventoryStore) (input : command.AdjustInventoryInput)
    (inv : inventory.Inventory) (po : product.GetProductOutput)
    (nowEntity nowStock : GoTime)
    (hpid : input.ProductID ≠ "") (hadj : input.Adjustment ≠ 0)
    (hpq : productQuery input.ProductID = Except.ok po)
    (hrow : s.rows.lookup input.ProductID = some inv)
    (hvalid : (inv.AdjustQuantity input.Adjustment nowEntity).1 = none) :
    command.AdjustInventoryCommand.Execute InventoryStore.getByProductID
        (InventoryStore.adjustStock nowStock) productQuery s input nowEntity =
      some (Except.ok { ID := inv.id
                        ProductID := inv.productID
                        ProductName := po.Name
                        Quantity := inv.quantity + input.Adjustment
                        ReservedQuantity := inv.reservedQuantity
                        AvailableQuantity := inv.quantity + input.Adjustment - inv.reservedQuantity
                        Location := inv.location
                        UpdatedAt := nowStock },
        { rows := s.rows.map fun r => if r.1 = input.ProductID then
            (r.1, { r.2 with quantity := r.2.quantity + input.Adjustment,
                             updatedAt := nowStock })
          else r }) := by
  unfold command.AdjustInventoryCommand.Execute
  rw [if_neg hpid, if_neg hadj, hpq]
  dsimp only
  unfold InventoryStore.getByProductID
  rw [hrow]
  dsimp only
  rw [hvalid]
  dsimp only [InventoryStore.adjustStock]
  rw [lookup_after_adjustStock, hrow]
  simp [inventory.Inventory.AvailableQuantity]

/-- C9 witness: the theorem applied over a concrete one-row store. -/
theorem c9_witness :
    (("p1" : String) ≠ "" ∧ (3 : Int) ≠ 0 ∧
     (fun _ => Except.ok samplePO : String → Except GoErr product.GetProductOutput) "p1"
       = Except.ok samplePO ∧
     (InventoryStore.mk [("p1", sampleInv)]).rows.lookup "p1" = some sampleInv ∧
     (sampleInv.AdjustQuantity 3 11).1 = none) ∧
    command.AdjustInventoryCommand.Execute InventoryStore.getByProductID
        (InventoryStore.adjustStock 12) (fun _ => Except.ok samplePO)
        (InventoryStore.mk [("p1", sampleInv)])
        (command.AdjustInventoryInput.mk "p1" 3 "restock") 11 =
      some (Except.ok { ID := sampleInv.id
                        ProductID := sampleInv.productID
                        ProductName := samplePO.Name
                        Quantity := sampleInv.quantity + 3
                        ReservedQuantity := sampleInv.reservedQuantity
                        AvailableQuantity := sampleInv.quantity + 3 - sampleInv.reservedQuantity
                        Location := sampleInv.location
                        UpdatedAt := 12 },
        { rows := [("p1", sampleInv)].map fun r => if r.1 = ("p1" : String) then
            (r.1, { r.2 with quantity := r.2.quantity + 3, updatedAt := 12 })
          else r }) :=
  ⟨⟨by decide, by decide, rfl, by decide, by decide⟩,
   c9_adjust_reread_safe (fun _ => Except.ok samplePO)
     (InventoryStore.mk [("p1", sampleInv)])
     (command.AdjustInventoryInput.mk "p1" 3 "restock") sampleInv samplePO 11 12
     (by decide) (by decide) rfl (by decide) (by decide)⟩

end SequentialStoreClaims
